import Mathlib

/-!
Verification development for the module layer of the ispc compiler
(src/module.cpp): declaration validation, multi-target compilation
driving, global reconciliation, dispatch-function synthesis, and output
assembly.  The C++ code is shallowly embedded: each modelled function
carries a doc comment naming the source function it embeds.  All
definitions come first; the theorems about them follow.
-/

set_option maxHeartbeats 1000000

namespace ISPCModule

/-- Semantic types of the language, as seen by module.cpp through the
closed set of type tags it dispatches on (CastType casts to StructType,
VectorType, SequentialType, PointerType, AtomicType).  Atomic types carry
an identifying kind (0 = int32, 1 = float, ...) and their variability;
pointer types carry their own variability and their pointee.  Struct
members are stored with their variability already resolved, matching what
StructType::GetElementType returns.  Const qualifiers, enum and reference
types are not needed by any claim and are not modelled. -/
inductive CType where
  | void1
  | atomic (kind : Nat) (varying : Bool)
  | vector (elem : CType)
  | array (size : Nat) (elem : CType)
  | struct1 (members : List CType)
  | pointer (varying : Bool) (base : CType)
deriving Repr

mutual

/-- Boolean structural equality on semantic types.  Modelled from the
spec: Type::Equal lives in the type module (not in src/); two types are
equal iff they agree structurally on every component. -/
def CType.beq : CType → CType → Bool
  | .void1, .void1 => true
  | .atomic k v, .atomic k2 v2 => k == k2 && v == v2
  | .vector e, .vector e2 => CType.beq e e2
  | .array n e, .array n2 e2 => n == n2 && CType.beq e e2
  | .struct1 ms, .struct1 ms2 => CType.beqList ms ms2
  | .pointer v b, .pointer v2 b2 => v == v2 && CType.beq b b2
  | _, _ => false

/-- Pointwise equality of member/parameter type lists (also checks that
the counts agree). -/
def CType.beqList : List CType → List CType → Bool
  | [], [] => true
  | a :: as, b :: bs => CType.beq a b && CType.beqList as bs
  | _, _ => false

end

mutual

/-- Modelled from the spec: Type::IsVaryingType lives in the type module
(not in src/).  The glossary defines varying as "a value whose
representation differs across the implicit parallel execution lanes":
atomic and pointer types carry their variability directly, and a
sequence or struct type varies iff its element/member types do. -/
def CType.isVaryingType : CType → Bool
  | .void1 => false
  | .atomic _ v => v
  | .vector e => CType.isVaryingType e
  | .array _ e => CType.isVaryingType e
  | .struct1 ms => CType.isVaryingTypeList ms
  | .pointer v _ => v

/-- True iff some type in the list is varying. -/
def CType.isVaryingTypeList : List CType → Bool
  | [] => false
  | m :: ms => CType.isVaryingType m || CType.isVaryingTypeList ms

end

/-- Embeds Type::IsVoidType as used by Module::AddGlobalVariable. -/
def CType.isVoidType : CType → Bool
  | .void1 => true
  | _ => false

/-- Embeds CastType(StructType) used as a predicate. -/
def CType.isStructType : CType → Bool
  | .struct1 _ => true
  | _ => false

/-- Embeds CastType(ArrayType) used as a predicate. -/
def CType.isArrayType : CType → Bool
  | .array _ _ => true
  | _ => false

/-- Embeds ArrayType::TotalElementCount (type module): the product of
the sizes along array dimensions; an unsized dimension is stored as
size 0 and makes the total 0. -/
def CType.totalElementCount : CType → Nat
  | .array n e => n * CType.totalElementCount e
  | _ => 1

mutual

/-- Embeds lRecursiveCheckValidParamType (module.cpp): the export
legality rule.  A struct is legal iff all members are (same mode); a
vector type is illegal unless vector-allowed mode is set, otherwise its
element is checked; an array defers to its element; a pointer is legal
iff it is not itself varying and its pointee is legal in vector-allowed
mode; any other type is illegal iff it is varying and vector-allowed
mode is not set.  The source tests the tags in the order struct, vector,
sequential, pointer, fallthrough; the per-constructor arms below
preserve that dispatch. -/
def lRecursiveCheckValidParamType : CType → Bool → Bool
  | .struct1 ms, vectorOk => lRecursiveCheckValidParamTypeList ms vectorOk
  | .vector e, vectorOk =>
      if vectorOk = false then false else lRecursiveCheckValidParamType e vectorOk
  | .array _ e, vectorOk => lRecursiveCheckValidParamType e vectorOk
  | .pointer v b, _ =>
      if v then false else lRecursiveCheckValidParamType b true
  | t, vectorOk => !(CType.isVaryingType t && !vectorOk)

/-- Conjunction of lRecursiveCheckValidParamType over the struct member
list (the for-loop in the StructType branch of the source). -/
def lRecursiveCheckValidParamTypeList : List CType → Bool → Bool
  | [], _ => true
  | m :: ms, vectorOk =>
      lRecursiveCheckValidParamType m vectorOk &&
        lRecursiveCheckValidParamTypeList ms vectorOk

end

/-- Storage classes of declarations (sym.h): default, static, extern,
and extern-with-C-linkage. -/
inductive StorageClass where
  | scNone
  | scStatic
  | scExt
  | scExtC
deriving DecidableEq, Repr

/-- LLVM linkage of an emitted global value: internal or external. -/
inductive Linkage where
  | internalLink
  | externalLink
deriving DecidableEq, Repr

/-- Kinds of diagnostics issued by the modelled functions, named after
the conditions in module.cpp that raise them. -/
inductive DiagKind where
  | shadowingError
  | qualifierError
  | unsizedArrayError
  | externInitializerError
  | nonConstantInitializerError
  | conflictingDeclarationError (newPos oldPos : Nat)
  | redefinitionError (newPos oldPos : Nat)
  | exportOverloadError
  | returnOverloadError
  | externCOverloadError
  | taskLinkageError
  | qualifierConflictError
  | exportedReturnError
  | taskReturnTypeError
  | structByValueError
  | exportedParamError (index : Nat)
  | globalLayoutMismatch (name : String)
deriving DecidableEq, Repr

/-- A diagnostic with its severity: Error increments the build error
count, Warning does not. -/
inductive Diag where
  | error (k : DiagKind)
  | warning (k : DiagKind)
deriving DecidableEq, Repr

/-- True for warnings, false for errors. -/
def Diag.isWarning : Diag → Bool
  | .warning _ => true
  | .error _ => false

/-- An emitted llvm::GlobalVariable, as far as module.cpp inspects it:
name, constness, linkage, and the optional initializer (none models a
NULL llvmInitializer, i.e. an extern declaration that defines no
storage; some v models a definition with constant initializer v). -/
structure MGlobal where
  name : String
  isConst : Bool
  linkage : Linkage
  init : Option Nat
deriving DecidableEq, Repr

/-- A Symbol for a global variable (sym.h), with the fields
Module::AddGlobalVariable reads and writes: name, declared type, storage
class, source position and the storagePtr handle to the emitted global.
The constValue field is elided (no claim depends on it). -/
structure VarSymbol where
  name : String
  type : CType
  storageClass : StorageClass
  pos : Nat
  storage : Option MGlobal
deriving Repr

/-- A function signature (FunctionType in type.h), with the components
Type::Equal compares: parameter types, return type and the exported /
extern-C / task qualifiers.  Parameter names and default-value
expressions are elided: signature equality ignores them and no claim
depends upon them. -/
structure FunctionType where
  paramTypes : List CType
  returnType : CType
  isExported : Bool
  isExternC : Bool
  isTask : Bool
deriving Repr

/-- Modelled from the spec: Type::Equal on two function types (the type
module is not in src/).  A signature is its parameter types, return type
and the fixed boolean qualifiers; two function types are equal iff all
of these agree. -/
def FunctionType.typeEqual (a b : FunctionType) : Bool :=
  CType.beq a.returnType b.returnType &&
    CType.beqList a.paramTypes b.paramTypes &&
    (a.isExported == b.isExported) &&
    (a.isExternC == b.isExternC) &&
    (a.isTask == b.isTask)

/-- A Symbol for a declared function: name, signature and position. -/
structure FuncSymbol where
  name : String
  ftype : FunctionType
  pos : Nat
deriving Repr

/-- The state Module::AddGlobalVariable and
Module::AddFunctionDeclaration operate on: the symbol table's variable
and function symbols, the llvm::Module's list of global variables, and
the diagnostics issued so far (the build's error count is the number of
error-severity entries). -/
structure ModState where
  vars : List VarSymbol
  funcs : List FuncSymbol
  globals : List MGlobal
  diags : List Diag
deriving Repr

/-- Embeds SymbolTable::LookupVariable. -/
def lookupVariable (st : ModState) (name : String) : Option VarSymbol :=
  st.vars.find? (fun s => s.name == name)

/-- Embeds the boolean use of SymbolTable::LookupFunction(name). -/
def lookupFunctionExists (st : ModState) (name : String) : Bool :=
  st.funcs.any (fun f => f.name == name)

/-- Embeds SymbolTable::LookupFunction(name, &overloads): all function
symbols with the given name, in table order. -/
def lookupFunctions (st : ModState) (name : String) : List FuncSymbol :=
  st.funcs.filter (fun f => f.name == name)

/-- Appends diagnostics (the effect of the Error/Warning calls). -/
def addDiags (st : ModState) (ds : List Diag) : ModState :=
  { st with diags := st.diags ++ ds }

/-- Modelled from the spec: the outcome of type-checking, converting and
constant-folding a global initializer expression (expression code is
outside this module).  survives models TypeCheck/TypeConvertExpr
returning non-NULL; constant models the value Expr::GetConstant
produces, if the folded expression is a compile-time constant. -/
structure InitExpr where
  survives : Bool
  constant : Option Nat
deriving DecidableEq, Repr

/-- Modelled from the spec: ArrayType::SizeUnsizedArrays (type module,
not in src/) resolves unsized array dimensions from the initializer
list.  The claims exercise only types without unsized dimensions, on
which it is the identity; NULL returns (cascaded errors) are modelled by
the none branch never being taken here. -/
def sizeUnsizedArrays (t : CType) (_initExpr : Option InitExpr) : Option CType :=
  some t

/-- The second half of Module::AddGlobalVariable once the declaration
has been accepted: choose linkage from the symbol's (original) storage
class, create the new llvm::GlobalVariable with the computed
initializer, replace any previous global of that name (the
replaceAllUsesWith / removeFromParent patch-up), and point the symbol's
storagePtr at the new global.  Debug-info emission and constValue
recording are elided. -/
def finishGlobalVariable (st : ModState) (sym : VarSymbol) (isConst : Bool)
    (llvmInitializer : Option Nat) : ModState :=
  let linkage :=
    if sym.storageClass = .scStatic then Linkage.internalLink
    else Linkage.externalLink
  let newGV : MGlobal := ⟨sym.name, isConst, linkage, llvmInitializer⟩
  { st with
    globals := st.globals.filter (fun g => g.name != sym.name) ++ [newGV],
    vars := st.vars.map (fun s =>
      if s.name = sym.name then { s with storage := some newGV } else s) }

/-- Embeds Module::AddGlobalVariable (module.cpp).  The control flow
follows the source: cascading-parse-error bailout, function-shadowing
check, extern-C rejection, void rejection, unsized-array sizing and
check, initializer processing (an extern declaration with an initializer
is an error but processing continues; a non-extern declaration gets the
folded constant or, failing that, a zero initializer), then the
redeclaration checks (conflicting type or storage class; redefinition)
and finally creation of the global.  LLVMType conversion failure and
debug-info emission are elided. -/
def addGlobalVariable (st : ModState) (name : String) (type : Option CType)
    (initExpr : Option InitExpr) (isConst : Bool) (storageClass : StorageClass)
    (pos : Nat) : ModState :=
  match type with
  | none => st
  | some type0 =>
    if name = "" then st
    else if lookupFunctionExists st name then
      addDiags st [.error .shadowingError]
    else if storageClass = .scExtC then
      addDiags st [.error .qualifierError]
    else if type0.isVoidType then
      addDiags st [.error .qualifierError]
    else
      match sizeUnsizedArrays type0 initExpr with
      | none => st
      | some type1 =>
        if type1.isArrayType && (type1.totalElementCount == 0) then
          addDiags st [.error .unsizedArrayError]
        else
          let initPair : List Diag × Option Nat :=
            if storageClass = .scExt ∨ storageClass = .scExtC then
              ((if initExpr.isSome then [Diag.error .externInitializerError]
                else []), none)
            else
              match initExpr with
              | none => ([], some 0)
              | some ie =>
                if ie.survives then
                  match ie.constant with
                  | some c => ([], some c)
                  | none => ([Diag.error .nonConstantInitializerError], some 0)
                else ([], some 0)
          let st1 := addDiags st initPair.1
          let llvmInitializer := initPair.2
          match lookupVariable st1 name with
          | some sym =>
            if CType.beq sym.type type1 = false ∨
                (sym.storageClass ≠ .scExt ∧ sym.storageClass ≠ .scExtC ∧
                  sym.storageClass ≠ storageClass) then
              addDiags st1 [.error (.conflictingDeclarationError pos sym.pos)]
            else
              match sym.storage with
              | none => st1
              | some gv =>
                if gv.init.isSome ∧ sym.storageClass ≠ .scExt ∧
                    sym.storageClass ≠ .scExtC then
                  addDiags st1 [.error (.redefinitionError pos sym.pos)]
                else
                  finishGlobalVariable st1 sym isConst llvmInitializer
          | none =>
            let sym : VarSymbol := ⟨name, type1, storageClass, pos, none⟩
            finishGlobalVariable { st1 with vars := st1.vars ++ [sym] }
              sym isConst llvmInitializer

/-- Result of the overload-scanning loop at the start of
Module::AddFunctionDeclaration: either the function returns early (an
identical signature was found, or overloading by return type was
diagnosed), or the loop falls through to the rest of the function.
Either way the diagnostics issued during the scan are carried along. -/
inductive OverloadScan where
  | returnEarly (ds : List Diag)
  | fallThrough (ds : List Diag)
deriving DecidableEq, Repr

/-- Embeds the overload-scanning for-loop of
Module::AddFunctionDeclaration: for each previously declared overload in
order, an exactly-equal type is a silent return; otherwise an export
qualifier on either declaration is an error (the loop continues); if all
parameter types match, overloading by return type alone is diagnosed and
the function returns. -/
def scanOverloads (functionType : FunctionType) :
    List FuncSymbol → OverloadScan
  | [] => .fallThrough []
  | o :: rest =>
    if FunctionType.typeEqual o.ftype functionType then .returnEarly []
    else
      let d1 : List Diag :=
        if functionType.isExported || o.ftype.isExported then
          [.error .exportOverloadError]
        else []
      if CType.beqList o.ftype.paramTypes functionType.paramTypes then
        .returnEarly (d1 ++ [.error .returnOverloadError])
      else
        match scanOverloads functionType rest with
        | .returnEarly ds => .returnEarly (d1 ++ ds)
        | .fallThrough ds => .fallThrough (d1 ++ ds)

/-- Embeds lCheckForStructParameters (module.cpp): one error if any
parameter is a struct type (the helper returns after the first). -/
def lCheckForStructParameters (functionType : FunctionType) : List Diag :=
  if functionType.paramTypes.any CType.isStructType then
    [.error .structByValueError]
  else []

/-- Embeds lCheckExportedParameterTypes (module.cpp): an error naming
the parameter if its type fails the export legality rule. -/
def lCheckExportedParameterTypes (t : CType) (index : Nat) : List Diag :=
  if lRecursiveCheckValidParamType t false = false then
    [.error (.exportedParamError index)]
  else []

/-- The per-parameter export checks of the argument loop in
Module::AddFunctionDeclaration, in parameter order. -/
def exportedParamDiags (functionType : FunctionType) : List Diag :=
  functionType.paramTypes.enum.foldr
    (fun p acc => lCheckExportedParameterTypes p.2 p.1 ++ acc) []

/-- The tail of Module::AddFunctionDeclaration after the overload scan
and the extern-C checks: the inline/noinline conflict returns without
registering; the exported-return-type, task-return-type, struct-by-value
and per-parameter export checks issue errors but continue; finally the
symbol is registered.  LLVM function creation, name mangling, DLL
storage, parameter attributes, default-argument ordering and
parameter-name shadow warnings are elided (none returns early or alters
the symbol table). -/
def addFunctionDeclarationTail (st : ModState) (name : String)
    (functionType : FunctionType) (isInline isNoInline : Bool)
    (pos : Nat) : ModState :=
  if isNoInline && isInline then
    addDiags st [.error .qualifierConflictError]
  else
    let d2 :=
      if functionType.isExported &&
          !(lRecursiveCheckValidParamType functionType.returnType false) then
        [Diag.error .exportedReturnError]
      else []
    let d3 :=
      if functionType.isTask && !(functionType.returnType.isVoidType) then
        [Diag.error .taskReturnTypeError]
      else []
    let d4 :=
      if functionType.isExported || functionType.isExternC then
        lCheckForStructParameters functionType
      else []
    let d5 :=
      if functionType.isExported then exportedParamDiags functionType
      else []
    let st2 := addDiags st (d2 ++ d3 ++ d4 ++ d5)
    { st2 with funcs := st2.funcs ++ [⟨name, functionType, pos⟩] }

/-- Embeds Module::AddFunctionDeclaration (module.cpp): the
global-variable shadowing check, the overload scan, the extern-C
restrictions (no task qualifier, no overloading unless the single
existing declaration has the identical type), then the tail checks and
registration. -/
def addFunctionDeclaration (st : ModState) (name : String)
    (functionType : FunctionType) (storageClass : StorageClass)
    (isInline isNoInline : Bool) (pos : Nat) : ModState :=
  if (lookupVariable st name).isSome then
    addDiags st [.error .shadowingError]
  else
    let overloadFuncs := lookupFunctions st name
    match scanOverloads functionType overloadFuncs with
    | .returnEarly ds => addDiags st ds
    | .fallThrough ds =>
      let st1 := addDiags st ds
      if storageClass = .scExtC ∧ functionType.isTask then
        addDiags st1 [.error .taskLinkageError]
      else if storageClass = .scExtC ∧ 1 < overloadFuncs.length then
        addDiags st1 [.error .externCOverloadError]
      else if storageClass = .scExtC ∧ overloadFuncs.length = 1 ∧
          (overloadFuncs.head?.elim false
            (fun o => FunctionType.typeEqual o.ftype functionType)) then
        st1
      else if storageClass = .scExtC ∧ overloadFuncs.length = 1 then
        addDiags st1 [.error .externCOverloadError]
      else
        addFunctionDeclarationTail st1 name functionType isInline isNoInline pos

/-- Runtime outcome of one trampoline invocation: either a call to the
variant compiled for a particular ISA, or the abort() call. -/
inductive DispatchResult where
  | call (isa : Nat)
  | abortCall
deriving DecidableEq, Repr

/-- Runtime behavior of the basic-block chain lCreateDispatchFunction
(module.cpp) emits.  The for-loop runs i from Target::NUM_ISAS - 1 down
to 0; an absent variant is skipped; for a present variant the emitted
comparison is ICMP_SGE between the detected __system_best_isa value and
the candidate's enumerant, branching to a block that forwards all
arguments to that variant; on failure control falls through to the next,
less capable, candidate; after all candidates the final block calls
abort().  numISAs plays the role of Target::NUM_ISAS, present of the
non-NULL slots of the FunctionTargetVariants table, and systemISA of the
loaded __system_best_isa value (a signed i32). -/
def dispatchTrampolineRun (numISAs : Nat) (present : Nat → Bool)
    (systemISA : Int) : DispatchResult :=
  match numISAs with
  | 0 => .abortCall
  | i + 1 =>
    if present i then
      if (i : Int) ≤ systemISA then .call i
      else dispatchTrampolineRun i present systemISA
    else dispatchTrampolineRun i present systemISA

/-- IR-level types as lCompatibleTypes (module.cpp) distinguishes them:
array types with their element count, pointer types with their pointee,
struct types with their member layout, and every remaining type kind as
a uniqued simple type carrying an identifying tag (llvm::Type objects
for scalar types are uniqued, so the source's pointer comparison is
identity of the scalar type). -/
inductive LLVMType where
  | simple (uid : Nat)
  | array (count : Nat) (elem : LLVMType)
  | pointer (elem : LLVMType)
  | struct1 (layout : List LLVMType)
deriving Repr

mutual

/-- Structural equality on IR types (the uniqued llvm::Type pointer
comparison). -/
def LLVMType.beq : LLVMType → LLVMType → Bool
  | .simple u, .simple u2 => u == u2
  | .array n e, .array n2 e2 => n == n2 && LLVMType.beq e e2
  | .pointer e, .pointer e2 => LLVMType.beq e e2
  | .struct1 a, .struct1 b => LLVMType.beqList a b
  | _, _ => false

/-- Pointwise equality of IR type lists. -/
def LLVMType.beqList : List LLVMType → List LLVMType → Bool
  | [], [] => true
  | a :: as, b :: bs => LLVMType.beq a b && LLVMType.beqList as bs
  | _, _ => false

end

/-- Embeds llvm::StructType::isLayoutIdentical: the two element lists
agree pointwise (element types being uniqued llvm::Type pointers). -/
def isLayoutIdentical (a b : List LLVMType) : Bool := LLVMType.beqList a b

/-- Embeds lCompatibleTypes (module.cpp).  The while loop runs as long
as the two type IDs agree: arrays must have the same element count and
recurse on the element type; pointers recurse on the pointee type;
structs are compared by isLayoutIdentical; any other kind falls to the
default case comparing the uniqued types themselves.  Differing type IDs
leave the loop and return false. -/
def lCompatibleTypes : LLVMType → LLVMType → Bool
  | .array n e, .array n2 e2 =>
      if n ≠ n2 then false else lCompatibleTypes e e2
  | .pointer e, .pointer e2 => lCompatibleTypes e e2
  | .struct1 a, .struct1 b => isLayoutIdentical a b
  | .simple u, .simple u2 => u == u2
  | _, _ => false

/-- An llvm::GlobalVariable of a per-target module, as
lExtractOrCheckGlobals inspects it: name, linkage, optional initializer
(none = declaration), constness and the value type (the element type of
the global's pointer type). -/
structure LGlobal where
  name : String
  linkage : Linkage
  init : Option Nat
  isConst : Bool
  valueType : LLVMType
deriving Repr

/-- Result of lExtractOrCheckGlobals: the mutated source module, the
dispatch module, the diagnostics issued, and whether the
Assert(exist != NULL) held for every looked-up global. -/
structure ExtractResult where
  msrc : List LGlobal
  mdst : List LGlobal
  diags : List Diag
  assertOk : Bool
deriving Repr

/-- Embeds lExtractOrCheckGlobals (module.cpp).  For every global
definition (external linkage and an initializer) of the source module,
the initializer is cleared, turning it into an extern declaration.  In
check mode the same-named global of the dispatch module is looked up
(Assert(exist != NULL); a failing assert aborts the process, modelled by
stopping with assertOk = false) and incompatible types draw a non-fatal
warning.  Otherwise a new global with the saved initializer and external
linkage is created in the dispatch module.  The symbol-table lookup that
only supplies the warning's source position is elided. -/
def lExtractOrCheckGlobals :
    List LGlobal → List LGlobal → Bool → ExtractResult
  | [], mdst, _ => ⟨[], mdst, [], true⟩
  | gv :: rest, mdst, check =>
    if gv.linkage = .externalLink ∧ gv.init.isSome then
      let gvCleared := { gv with init := none }
      if check then
        match mdst.find? (fun e => e.name == gv.name) with
        | none => ⟨gvCleared :: rest, mdst, [], false⟩
        | some exist =>
          let warns :=
            if lCompatibleTypes (.pointer exist.valueType)
                (.pointer gv.valueType) = false then
              [Diag.warning (.globalLayoutMismatch gv.name)]
            else []
          let r := lExtractOrCheckGlobals rest mdst check
          ⟨gvCleared :: r.msrc, r.mdst, warns ++ r.diags, r.assertOk⟩
      else
        let newGlobal : LGlobal :=
          ⟨gv.name, .externalLink, gv.init, gv.isConst, gv.valueType⟩
        let r := lExtractOrCheckGlobals rest (mdst ++ [newGlobal]) check
        ⟨gvCleared :: r.msrc, r.mdst, r.diags, r.assertOk⟩
    else
      let r := lExtractOrCheckGlobals rest mdst check
      ⟨gv :: r.msrc, r.mdst, r.diags, r.assertOk⟩

/-- The promoted copies lExtractOrCheckGlobals adds to the dispatch
module in extract mode: one external definition per externally-linked,
initialized source global, in source order. -/
def promotedGlobals (msrc : List LGlobal) : List LGlobal :=
  msrc.filterMap (fun gv =>
    if gv.linkage = .externalLink ∧ gv.init.isSome then
      some ⟨gv.name, .externalLink, gv.init, gv.isConst, gv.valueType⟩
    else none)

/-- Number of definitions (globals with an initializer) of a given name
in a module. -/
def defCount (mdl : List LGlobal) (name : String) : Nat :=
  (mdl.filter (fun g => g.name == name && g.init.isSome)).length

/-- Embeds lGetTargetFileName (module.cpp) on character lists.  The
buffer is allocated with strlen(outFileName) + 16 bytes.  With a '.' in
the name, everything before the last '.' is copied, then '_', the ISA
name and the original suffix (from the last '.' on) are appended; with
no '.', '_' and the ISA name are appended to the whole name.  Each
strncat is bounded by the remaining buffer space, so the result is the
full concatenation truncated to bufferSize - 1 characters. -/
def lGetTargetFileNameChars (outFileName isaString : List Char) : List Char :=
  let bufferSize := outFileName.length + 16
  let full :=
    match outFileName.reverse.findIdx? (fun c => c == '.') with
    | some k =>
      let count := outFileName.length - 1 - k
      outFileName.take count ++ ('_' :: isaString) ++ outFileName.drop count
    | none => outFileName ++ ('_' :: isaString)
  full.take (bufferSize - 1)

/-- lGetTargetFileName on strings. -/
def lGetTargetFileName (outFileName isaString : String) : String :=
  ⟨lGetTargetFileNameChars outFileName.data isaString.data⟩

/-- The character std::string::operator[] yields at index 0: the
terminating NUL for an empty string. -/
def firstCharOrNul (s : String) : Char := s.data.headD (Char.ofNat 0)

/-- Embeds RegisterDependency (module.cpp): a reported file name is
inserted into the registered dependency set unless its first character
is a left angle bracket or it is exactly "stdlib.ispc".  The
std::set of strings is modelled as a duplicate-free list with
insert-if-absent; the set's iteration order is immaterial to the
claims. -/
def registerDependency (deps : List String) (fileName : String) :
    List String :=
  if firstCharOrNul fileName ≠ '<' ∧ fileName ≠ "stdlib.ispc" then
    if fileName ∈ deps then deps else deps ++ [fileName]
  else deps

/-- Embeds the plain (non-make-rule) branch of Module::writeDeps: each
registered dependency is printed on its own line, in set order. -/
def writeDepsLines (deps : List String) : List String := deps

/-- The output kinds Module::CompileAndOutput distinguishes for its main
output argument. -/
inductive OutputType1 where
  | object
  | assembly
  | bitcode
  | bitcodeText
  | cxx
deriving DecidableEq, Repr

/-- External outcomes driving one single-target run of
Module::CompileAndOutput: whether the requested target is valid, whether
it is a generic target, the error count Module::CompileFile returns, and
for each optional output (object/assembly file, header, dependency
listing, host and device stubs) whether it was requested and whether its
writeOutput call succeeds (none = not requested, some b = requested and
succeeding iff b). -/
structure SingleTargetEnv where
  targetValid : Bool
  targetIsGeneric : Bool
  compileFileErrors : Nat
  outFile : Option Bool
  headerFile : Option Bool
  depsFile : Option Bool
  hostStubFile : Option Bool
  devStubFile : Option Bool
deriving DecidableEq, Repr

/-- Embeds the single-target branch of Module::CompileAndOutput,
returning (exit value, final module error count).  An invalid target
returns 1 before any module exists; the generic-target/output-type
mismatches call Error (incrementing the module's count) and return 1.
A failing writeOutput returns 1, and whether the error count rises with
it depends on the writer: writeObjectFileOrAssembly's open failure
calls Error before returning false, so object and assembly output
failures leave a count of 1, and the CXX branch's only in-source
failure (a non-generic ISA) also calls Error (WriteCXXFile itself is
external and modelled as succeeding); writeBitcode, writeHeader,
writeDeps and the two stub writers fail through perror alone, leaving
the count untouched.  A failed compile increments the count once more;
otherwise the exit value is errorCount > 0. -/
def compileAndOutputSingle (env : SingleTargetEnv)
    (outputType : OutputType1) : Nat × Nat :=
  if env.targetValid = false then (1, 0)
  else if env.compileFileErrors == 0 then
    if outputType = .cxx ∧ env.targetIsGeneric = false then (1, 1)
    else if (outputType = .assembly ∨ outputType = .object) ∧
        env.targetIsGeneric then (1, 1)
    else if env.outFile = some false then
      (1, if outputType = .bitcode ∨ outputType = .bitcodeText then 0 else 1)
    else if env.headerFile = some false then (1, 0)
    else if env.depsFile = some false then (1, 0)
    else if env.hostStubFile = some false then (1, 0)
    else if env.devStubFile = some false then (1, 0)
    else (0, 0)
  else (1, env.compileFileErrors + 1)

/-- External outcomes for one requested target inside the multi-target
loop of Module::CompileAndOutput: target validity, its ISA enumerant
(for the duplicate-ISA check), the error count CompileFile returns, and
the success of the per-target object/assembly write and of the
per-target header writes. -/
structure TargetRunEnv where
  valid : Bool
  isa : Nat
  compileFileErrors : Nat
  writeOk : Bool
  headerWriteOk : Bool
deriving DecidableEq, Repr

/-- Configuration of a multi-target Module::CompileAndOutput run. -/
structure MultiTargetEnv where
  srcIsStdin : Bool
  cpuGiven : Bool
  outFileGiven : Bool
  outFileIsDash : Bool
  headerGiven : Bool
  headerFopenOk : Bool
  depsGiven : Bool
  depsWriteOk : Bool
  dispatchTargetValid : Bool
  targets : List TargetRunEnv
deriving DecidableEq, Repr

/-- The per-target loop of the multi-target branch of
Module::CompileAndOutput, with the code that follows it.  An invalid
target or a duplicate ISA returns 1; in a successfully compiled unit a
failing per-target write returns 1 at once — before the unit's error
count is added to the accumulator, so even an Error raised inside the
writer never reaches it; a failed compile contributes its error count
plus one to the accumulator, and a nonzero accumulator aborts the whole
build with 1; a failing header write returns 1.  After the loop,
an invalid dispatch target or a failing dependency write returns 1, and
otherwise the exit value is the accumulated error count compared with
zero.  Global extraction and dispatch emission mutate modules, not the
exit value, and are modelled separately by lExtractOrCheckGlobals. -/
def multiTargetLoop (env : MultiTargetEnv) :
    List TargetRunEnv → List Nat → Nat → Nat × Nat
  | [], _, errorCount =>
    if env.dispatchTargetValid = false then (1, errorCount)
    else if env.depsGiven ∧ env.depsWriteOk = false then (1, errorCount)
    else (if errorCount > 0 then 1 else 0, errorCount)
  | t :: rest, seenISAs, errorCount =>
    if t.valid = false then (1, errorCount)
    else if t.isa ∈ seenISAs then (1, errorCount)
    else if t.compileFileErrors == 0 ∧ env.outFileGiven ∧ t.writeOk = false then
      (1, errorCount)
    else
      let merrors :=
        if t.compileFileErrors == 0 then 0 else t.compileFileErrors + 1
      let errorCount2 := errorCount + merrors
      if errorCount2 ≠ 0 then (1, errorCount2)
      else if env.headerGiven ∧ t.headerWriteOk = false then (1, errorCount2)
      else multiTargetLoop env rest (t.isa :: seenISAs) errorCount2

/-- Embeds the multi-target branch of Module::CompileAndOutput: C++
output, stdin sources and cpu overrides are rejected up front (before
any module exists, so with error count 0); output to "-" is rejected; a
header file that cannot be opened hits the source's return false in an
int-returning function, i.e. exit value 0; then the per-target loop
runs. -/
def compileAndOutputMulti (env : MultiTargetEnv)
    (outputType : OutputType1) : Nat × Nat :=
  if outputType = .cxx then (1, 0)
  else if env.srcIsStdin then (1, 0)
  else if env.cpuGiven then (1, 0)
  else if env.outFileGiven ∧ env.outFileIsDash then (1, 0)
  else if env.headerGiven ∧ env.headerFopenOk = false then (0, 0)
  else multiTargetLoop env env.targets [] 0

/-- Uniform 32-bit int. -/
def tInt : CType := .atomic 0 false

/-- Uniform float. -/
def tFloat : CType := .atomic 1 false

/-- Scenario start state: empty symbol table and module. -/
def st0 : ModState := ⟨[], [], [], []⟩

/-- Claim C1 scenario, first step: declare global int x. -/
def c1s1 : ModState := addGlobalVariable st0 "x" (some tInt) none false .scNone 1

/-- Claim C1 scenario, second step: redeclare it as extern int x. -/
def c1s2 : ModState := addGlobalVariable c1s1 "x" (some tInt) none false .scExt 2

/-- Reversed C1 scenario, first step: declare extern int x. -/
def c1e1 : ModState := addGlobalVariable st0 "x" (some tInt) none false .scExt 1

/-- Reversed C1 scenario, second step: define int x. -/
def c1e2 : ModState := addGlobalVariable c1e1 "x" (some tInt) none false .scNone 2

/-- Reversed C1 scenario, third step: redeclare as extern float x. -/
def c1e3 : ModState := addGlobalVariable c1e2 "x" (some tFloat) none false .scExt 3

/-- Claim C3 variant table: variants compiled at capability levels 2
and 5. -/
def c3present : Nat → Bool := fun i => i == 2 || i == 5

/-- Claim C5 counterexample, first declaration: export int f(). -/
def c5ftA : FunctionType := ⟨[], tInt, true, false, false⟩

/-- Claim C5 counterexample, second declaration: int f(), identical
parameter types and return type, without the export qualifier. -/
def c5ftB : FunctionType := ⟨[], tInt, false, false, false⟩

/-- Claim C5 counterexample state: f already declared as c5ftA. -/
def c5st : ModState := ⟨[], [⟨"f", c5ftA, 1⟩], [], []⟩

/-- Claim C5 counterexample run: the second declaration processed. -/
def c5out : ModState := addFunctionDeclaration c5st "f" c5ftB .scNone false false 2

/-- Claim C6 counterexample: a valid target, a clean compile, one
requested main output whose write fails.  With bitcode output the
failing writer is writeBitcode, whose open failure path is perror and
return false, with no Error call. -/
def c6env : SingleTargetEnv :=
  ⟨true, false, 0, some false, none, none, none, none⟩

mutual

theorem CType.beq_refl : ∀ t : CType, CType.beq t t = true
  | .void1 => rfl
  | .atomic k v => by simp [CType.beq]
  | .vector e => by simp [CType.beq, CType.beq_refl e]
  | .array n e => by simp [CType.beq, CType.beq_refl e]
  | .struct1 ms => by simp [CType.beq, CType.beqList_refl ms]
  | .pointer v b => by simp [CType.beq, CType.beq_refl b]

theorem CType.beqList_refl : ∀ ts : List CType, CType.beqList ts ts = true
  | [] => rfl
  | a :: as => by simp [CType.beqList, CType.beq_refl a, CType.beqList_refl as]

end

theorem CType.beq_sound :
    ∀ a b : CType, CType.beq a b = true → a = b := by
  apply CType.beq.induct (fun a b => CType.beq a b = true → a = b)
      (fun as bs => CType.beqList as bs = true → as = bs)
  · intro _; rfl
  · intro k v k2 v2 h
    simp [CType.beq] at h
    simp [h.1, h.2]
  · intro e e2 ih h
    simp [CType.beq] at h
    simp [ih h]
  · intro n e n2 e2 ih h
    simp [CType.beq] at h
    simp [h.1, ih h.2]
  · intro ms ms2 ih h
    simp [CType.beq] at h
    simp [ih h]
  · intro v b v2 b2 ih h
    simp [CType.beq] at h
    simp [h.1, ih h.2]
  · intro t x h1 h2 h3 h4 h5 h6
    cases t <;> cases x <;>
      first
        | exact (h1 rfl rfl).elim
        | exact (h2 _ _ _ _ rfl rfl).elim
        | exact (h3 _ _ rfl rfl).elim
        | exact (h4 _ _ _ _ rfl rfl).elim
        | exact (h5 _ _ rfl rfl).elim
        | exact (h6 _ _ _ _ rfl rfl).elim
        | simp [CType.beq]
  · intro _; rfl
  · intro a as b bs iha ihas h
    simp [CType.beqList] at h
    simp [iha h.1, ihas h.2]
  · intro t x h1 h2
    cases t <;> cases x <;>
      first
        | exact (h1 rfl rfl).elim
        | exact (h2 _ _ _ _ rfl rfl).elim
        | simp [CType.beqList]

theorem CType.beq_iff (a b : CType) : CType.beq a b = true ↔ a = b :=
  ⟨CType.beq_sound a b, fun h => h ▸ CType.beq_refl a⟩

theorem CType.beqList_sound :
    ∀ as bs : List CType, CType.beqList as bs = true → as = bs := by
  intro as
  induction as with
  | nil =>
    intro bs h
    cases bs with
    | nil => rfl
    | cons b bs => simp [CType.beqList] at h
  | cons a as ih =>
    intro bs h
    cases bs with
    | nil => simp [CType.beqList] at h
    | cons b bs =>
      simp [CType.beqList] at h
      simp [CType.beq_sound a b h.1, ih bs h.2]

theorem CType.beqList_iff (as bs : List CType) :
    CType.beqList as bs = true ↔ as = bs :=
  ⟨CType.beqList_sound as bs, fun h => h ▸ CType.beqList_refl as⟩

mutual

theorem lRecursiveCheckValidParamType_varying :
    ∀ t : CType, CType.isVaryingType t = true →
      lRecursiveCheckValidParamType t false = false
  | .void1 => by simp [CType.isVaryingType]
  | .atomic k v => by
      simp [CType.isVaryingType, lRecursiveCheckValidParamType]
  | .vector e => by
      simp [lRecursiveCheckValidParamType]
  | .array n e => by
      intro h
      simp [CType.isVaryingType] at h
      simp [lRecursiveCheckValidParamType,
        lRecursiveCheckValidParamType_varying e h]
  | .struct1 ms => by
      intro h
      simp [CType.isVaryingType] at h
      simp [lRecursiveCheckValidParamType,
        lRecursiveCheckValidParamTypeList_varying ms h]
  | .pointer v b => by
      intro h
      simp [CType.isVaryingType] at h
      simp [lRecursiveCheckValidParamType, h]

theorem lRecursiveCheckValidParamTypeList_varying :
    ∀ ms : List CType, CType.isVaryingTypeList ms = true →
      lRecursiveCheckValidParamTypeList ms false = false
  | [] => by simp [CType.isVaryingTypeList]
  | m :: ms => by
      intro h
      simp [CType.isVaryingTypeList] at h
      cases h with
      | inl h =>
        simp [lRecursiveCheckValidParamTypeList,
          lRecursiveCheckValidParamType_varying m h]
      | inr h =>
        simp [lRecursiveCheckValidParamTypeList,
          lRecursiveCheckValidParamTypeList_varying ms h]

end

theorem lRecursiveCheckValidParamTypeList_all (ms : List CType) (vOk : Bool) :
    lRecursiveCheckValidParamTypeList ms vOk = true ↔
      ∀ m ∈ ms, lRecursiveCheckValidParamType m vOk = true := by
  induction ms with
  | nil => simp [lRecursiveCheckValidParamTypeList]
  | cons m ms ih => simp [lRecursiveCheckValidParamTypeList, ih]

theorem lRecursiveCheckValidParamTypeList_false_of_mem {ms : List CType}
    {m : CType} (vOk : Bool) (hm : m ∈ ms)
    (hf : lRecursiveCheckValidParamType m vOk = false) :
    lRecursiveCheckValidParamTypeList ms vOk = false := by
  induction ms with
  | nil => cases hm
  | cons a as ih =>
    cases hm with
    | head => simp [lRecursiveCheckValidParamTypeList, hf]
    | tail _ hmem =>
      simp [lRecursiveCheckValidParamTypeList, ih hmem]

/-- Claim C2 (amended): the export-legality rule is checked with
vector-allowed false at the top call; it rejects a varying pointer,
rejects any varying type (in particular a struct containing a varying
member), rejects a bare vector type, checks a uniform pointer's pointee
in vector-allowed mode (so a uniform pointer to varying data is
accepted), and accepts a struct all of whose members are uniform and
themselves export-legal (a uniform but vector-typed member would still
be rejected, which is what the original claim missed). -/
theorem c2_export_legality_amended :
    (∀ b : CType,
      lRecursiveCheckValidParamType (.pointer true b) false = false)
  ∧ (∀ t : CType, t.isVaryingType = true →
      lRecursiveCheckValidParamType t false = false)
  ∧ (∀ (ms : List CType) (m : CType), m ∈ ms → m.isVaryingType = true →
      lRecursiveCheckValidParamType (.struct1 ms) false = false)
  ∧ (∀ e : CType, lRecursiveCheckValidParamType (.vector e) false = false)
  ∧ (∀ b : CType, lRecursiveCheckValidParamType (.pointer false b) false =
      lRecursiveCheckValidParamType b true)
  ∧ lRecursiveCheckValidParamType (.pointer false (.atomic 0 true)) false = true
  ∧ (∀ ms : List CType,
      (∀ m ∈ ms, m.isVaryingType = false ∧
        lRecursiveCheckValidParamType m false = true) →
      lRecursiveCheckValidParamType (.struct1 ms) false = true) := by
  refine ⟨?_, lRecursiveCheckValidParamType_varying, ?_, ?_, ?_, rfl, ?_⟩
  · intro b; simp [lRecursiveCheckValidParamType]
  · intro ms m hm hv
    have hf := lRecursiveCheckValidParamType_varying m hv
    simp [lRecursiveCheckValidParamType,
      lRecursiveCheckValidParamTypeList_false_of_mem false hm hf]
  · intro e; simp [lRecursiveCheckValidParamType]
  · intro b; simp [lRecursiveCheckValidParamType]
  · intro ms h
    simp only [lRecursiveCheckValidParamType]
    exact (lRecursiveCheckValidParamTypeList_all ms false).2
      (fun m hm => (h m hm).2)

/-- Claim C2 as stated is false on the code: the struct whose single
member is the uniform short-vector type uniform int<N> has all members
uniform, yet lRecursiveCheckValidParamType rejects it in the top-level
(vector-allowed false) mode. -/
theorem c2_export_legality_counterexample :
    CType.isVaryingType (.vector (.atomic 0 false)) = false
  ∧ lRecursiveCheckValidParamType
      (.struct1 [.vector (.atomic 0 false)]) false = false := by
  exact ⟨rfl, rfl⟩

/-- Witness for claim C2: the amended theorem applied at concrete
inputs, a struct with one varying int member (rejected) and a struct
with a uniform int member and a uniform pointer to varying float
(accepted). -/
theorem c2_export_legality_witness :
    lRecursiveCheckValidParamType (.struct1 [.atomic 0 true]) false = false
  ∧ lRecursiveCheckValidParamType
      (.struct1 [.atomic 0 false, .pointer false (.atomic 1 true)])
      false = true :=
  ⟨c2_export_legality_amended.2.2.1 [.atomic 0 true] (.atomic 0 true)
      (by simp) rfl,
    c2_export_legality_amended.2.2.2.2.2.2
      [.atomic 0 false, .pointer false (.atomic 1 true)]
      (by intro m hm
          simp only [List.mem_cons, List.not_mem_nil, or_false] at hm
          rcases hm with h | h <;> subst h <;> exact ⟨rfl, rfl⟩)⟩

/-- Claim C8: the per-target output file name splices the ISA name in
before the final suffix when the base name has one, and appends it
otherwise. -/
theorem c8_target_filename :
    lGetTargetFileName "foo.o" "avx2" = "foo_avx2.o"
  ∧ lGetTargetFileName "foo" "sse4" = "foo_sse4" := by
  exact ⟨rfl, rfl⟩

theorem dispatchTrampolineRun_first_match :
    ∀ (numISAs : Nat) (present : Nat → Bool) (systemISA : Int) (i : Nat),
      i < numISAs → present i = true → (i : Int) ≤ systemISA →
      (∀ j : Nat, i < j → j < numISAs → present j = true →
        systemISA < (j : Int)) →
      dispatchTrampolineRun numISAs present systemISA = .call i := by
  intro numISAs present systemISA
  induction numISAs with
  | zero => intro i hi; omega
  | succ n ih =>
    intro i hi hp hle hmax
    by_cases hin : i = n
    · subst hin
      simp [dispatchTrampolineRun, hp, hle]
    · have hi2 : i < n := by omega
      by_cases hpn : present n = true
      · have hsn : systemISA < (n : Int) := hmax n (by omega) (by omega) hpn
        have hnle : ¬ ((n : Int) ≤ systemISA) := by omega
        simp only [dispatchTrampolineRun, hpn, if_true, hnle, if_false]
        exact ih i hi2 hp hle (fun j h1 h2 => hmax j h1 (by omega))
      · simp only [dispatchTrampolineRun, hpn, if_false]
        exact ih i hi2 hp hle (fun j h1 h2 => hmax j h1 (by omega))

theorem dispatchTrampolineRun_abort :
    ∀ (numISAs : Nat) (present : Nat → Bool) (systemISA : Int),
      (∀ j : Nat, j < numISAs → present j = true → systemISA < (j : Int)) →
      dispatchTrampolineRun numISAs present systemISA = .abortCall := by
  intro numISAs present systemISA
  induction numISAs with
  | zero => intro _; rfl
  | succ n ih =>
    intro hall
    by_cases hpn : present n = true
    · have hsn : systemISA < (n : Int) := hall n (by omega) hpn
      have hnle : ¬ ((n : Int) ≤ systemISA) := by omega
      simp only [dispatchTrampolineRun, hpn, if_true, hnle, if_false]
      exact ih (fun j h1 => hall j (by omega))
    · simp only [dispatchTrampolineRun, hpn, if_false]
      exact ih (fun j h1 => hall j (by omega))

/-- Claim C3: the dispatch trampoline tests candidates in strictly
descending ISA order with the comparison detected >= candidate, so it
calls the most capable present variant not exceeding the detected level
and aborts when every present variant exceeds it.  For variants at
levels 2 and 5: detected 5 calls the level-5 variant, detected 3 calls
the level-2 variant, and detected 1 (or 0) reaches the abort call. -/
theorem c3_dispatch_order :
    (∀ (numISAs : Nat) (present : Nat → Bool) (systemISA : Int) (i : Nat),
      i < numISAs → present i = true → (i : Int) ≤ systemISA →
      (∀ j : Nat, i < j → j < numISAs → present j = true →
        systemISA < (j : Int)) →
      dispatchTrampolineRun numISAs present systemISA = .call i)
  ∧ (∀ (numISAs : Nat) (present : Nat → Bool) (systemISA : Int),
      (∀ j : Nat, j < numISAs → present j = true → systemISA < (j : Int)) →
      dispatchTrampolineRun numISAs present systemISA = .abortCall)
  ∧ dispatchTrampolineRun 8 c3present 5 = .call 5
  ∧ dispatchTrampolineRun 8 c3present 3 = .call 2
  ∧ dispatchTrampolineRun 8 c3present 1 = .abortCall
  ∧ dispatchTrampolineRun 8 c3present 0 = .abortCall := by
  refine ⟨dispatchTrampolineRun_first_match, dispatchTrampolineRun_abort,
    ?_, ?_, ?_, ?_⟩ <;> decide

/-- Witness for claim C3: the general first-match part of the theorem
applied at a concrete input (variants at 2 and 5 out of 6 levels,
detected level 4, so the level-2 variant is called). -/
theorem c3_dispatch_order_witness :
    dispatchTrampolineRun 6 c3present 4 = .call 2 :=
  c3_dispatch_order.1 6 c3present 4 2 (by decide) (by decide) (by decide)
    (by intro j h1 h2 hp
        interval_cases j <;> revert hp <;> decide)

mutual

theorem llvmTypeBeq_refl : ∀ t : LLVMType, LLVMType.beq t t = true
  | .simple u => by simp [LLVMType.beq]
  | .array n e => by simp [LLVMType.beq, llvmTypeBeq_refl e]
  | .pointer e => by simp [LLVMType.beq, llvmTypeBeq_refl e]
  | .struct1 a => by simp [LLVMType.beq, llvmTypeBeqList_refl a]

theorem llvmTypeBeqList_refl :
    ∀ ts : List LLVMType, LLVMType.beqList ts ts = true
  | [] => rfl
  | a :: as => by
      simp [LLVMType.beqList, llvmTypeBeq_refl a, llvmTypeBeqList_refl as]

end

theorem llvmTypeBeq_sound :
    ∀ a b : LLVMType, LLVMType.beq a b = true → a = b := by
  apply LLVMType.beq.induct (fun a b => LLVMType.beq a b = true → a = b)
      (fun as bs => LLVMType.beqList as bs = true → as = bs)
  · intro u u2 h
    simp [LLVMType.beq] at h
    simp [h]
  · intro n e n2 e2 ih h
    simp [LLVMType.beq] at h
    simp [h.1, ih h.2]
  · intro e e2 ih h
    simp [LLVMType.beq] at h
    simp [ih h]
  · intro a b ih h
    simp [LLVMType.beq] at h
    simp [ih h]
  · intro t x h1 h2 h3 h4
    cases t <;> cases x <;>
      first
        | exact (h1 _ _ rfl rfl).elim
        | exact (h2 _ _ _ _ rfl rfl).elim
        | exact (h3 _ _ rfl rfl).elim
        | exact (h4 _ _ rfl rfl).elim
        | simp [LLVMType.beq]
  · intro _; rfl
  · intro a as b bs iha ihas h
    simp [LLVMType.beqList] at h
    simp [iha h.1, ihas h.2]
  · intro t x h1 h2
    cases t <;> cases x <;>
      first
        | exact (h1 rfl rfl).elim
        | exact (h2 _ _ _ _ rfl rfl).elim
        | simp [LLVMType.beqList]

theorem llvmTypeBeqList_sound :
    ∀ as bs : List LLVMType, LLVMType.beqList as bs = true → as = bs := by
  intro as
  induction as with
  | nil =>
    intro bs h
    cases bs with
    | nil => rfl
    | cons b bs => simp [LLVMType.beqList] at h
  | cons a as ih =>
    intro bs h
    cases bs with
    | nil => simp [LLVMType.beqList] at h
    | cons b bs =>
      simp [LLVMType.beqList] at h
      simp [llvmTypeBeq_sound a b h.1, ih bs h.2]

theorem isLayoutIdentical_symm (a b : List LLVMType) :
    isLayoutIdentical a b = isLayoutIdentical b a := by
  cases h : isLayoutIdentical a b with
  | true =>
    have := llvmTypeBeqList_sound a b h
    subst this
    exact h.symm
  | false =>
    cases h2 : isLayoutIdentical b a with
    | true =>
      have := llvmTypeBeqList_sound b a h2
      subst this
      rw [← h, h2]
    | false => rfl

theorem lCompatibleTypes_refl : ∀ t : LLVMType, lCompatibleTypes t t = true
  | .simple u => by simp [lCompatibleTypes]
  | .array n e => by simp [lCompatibleTypes, lCompatibleTypes_refl e]
  | .pointer e => by simp [lCompatibleTypes, lCompatibleTypes_refl e]
  | .struct1 a => by
      simp [lCompatibleTypes, isLayoutIdentical, llvmTypeBeqList_refl a]

theorem lCompatibleTypes_symm :
    ∀ a b : LLVMType, lCompatibleTypes a b = lCompatibleTypes b a
  | .simple u, .simple u2 => by
      simp only [lCompatibleTypes]
      rw [Bool.eq_iff_iff, beq_iff_eq, beq_iff_eq]
      exact eq_comm
  | .simple _, .array _ _ => by simp [lCompatibleTypes]
  | .simple _, .pointer _ => by simp [lCompatibleTypes]
  | .simple _, .struct1 _ => by simp [lCompatibleTypes]
  | .array _ _, .simple _ => by simp [lCompatibleTypes]
  | .array n e, .array n2 e2 => by
      by_cases h : n = n2
      · subst h
        simp [lCompatibleTypes, lCompatibleTypes_symm e e2]
      · have h2 : ¬ (n2 = n) := fun hh => h hh.symm
        simp [lCompatibleTypes, h, h2]
  | .array _ _, .pointer _ => by simp [lCompatibleTypes]
  | .array _ _, .struct1 _ => by simp [lCompatibleTypes]
  | .pointer _, .simple _ => by simp [lCompatibleTypes]
  | .pointer e, .pointer e2 => by
      simp [lCompatibleTypes, lCompatibleTypes_symm e e2]
  | .pointer _, .array _ _ => by simp [lCompatibleTypes]
  | .pointer _, .struct1 _ => by simp [lCompatibleTypes]
  | .struct1 _, .simple _ => by simp [lCompatibleTypes]
  | .struct1 _, .array _ _ => by simp [lCompatibleTypes]
  | .struct1 _, .pointer _ => by simp [lCompatibleTypes]
  | .struct1 a, .struct1 b => by
      simp [lCompatibleTypes, isLayoutIdentical_symm a b]

/-- Claim C7: the structural compatibility check on IR types is
reflexive and symmetric; array types with different element counts are
never compatible regardless of element types; struct types are
compatible iff layout-identical; pointer types are compared recursively
on their pointees. -/
theorem c7_compatible_types :
    (∀ t : LLVMType, lCompatibleTypes t t = true)
  ∧ (∀ a b : LLVMType, lCompatibleTypes a b = lCompatibleTypes b a)
  ∧ (∀ (n m : Nat) (e f : LLVMType), n ≠ m →
      lCompatibleTypes (.array n e) (.array m f) = false)
  ∧ (∀ a b : List LLVMType,
      lCompatibleTypes (.struct1 a) (.struct1 b) = isLayoutIdentical a b)
  ∧ (∀ a b : LLVMType,
      lCompatibleTypes (.pointer a) (.pointer b) = lCompatibleTypes a b) := by
  refine ⟨lCompatibleTypes_refl, lCompatibleTypes_symm, ?_, ?_, ?_⟩
  · intro n m e f h
    simp [lCompatibleTypes, h]
  · intro a b; rfl
  · intro a b; rfl

/-- Witness for claim C7: the array-length part of the theorem applied
at a concrete input (arrays of lengths 2 and 3 over the same element
type are incompatible). -/
theorem c7_compatible_types_witness :
    lCompatibleTypes (.array 2 (.simple 0)) (.array 3 (.simple 0)) = false :=
  c7_compatible_types.2.2.1 2 3 (.simple 0) (.simple 0) (by decide)

/-- Claim C1 is false on the code: declaring global int x with no
storage qualifier and then redeclaring it as extern int x does not
succeed.  The redeclaration check only tolerates a storage-class
mismatch when the previously recorded symbol is extern, so this second
declaration draws the conflicting-declaration error (while the first
declaration was clean), and the state is otherwise unchanged. -/
theorem c1_extern_redeclaration_counterexample :
    c1s1.diags = []
  ∧ c1s2.diags = [.error (.conflictingDeclarationError 2 1)]
  ∧ c1s2.vars = c1s1.vars
  ∧ c1s2.globals = c1s1.globals := by
  exact ⟨rfl, rfl, rfl, rfl⟩

/-- Claim C1 (amended): the tolerated direction is extern first.
Declaring extern int x and then int x succeeds: no diagnostic at all (in
particular no warning), exactly one Symbol named x remains, and the
module holds the single defined global.  A subsequent redeclaration with
a different type, extern float x, fails with the
conflicting-declaration error carrying both source positions and
changes nothing else. -/
theorem c1_extern_redeclaration_amended :
    c1e1.diags = []
  ∧ c1e2.diags = []
  ∧ c1e2.vars.map VarSymbol.name = ["x"]
  ∧ c1e2.globals = [⟨"x", false, .externalLink, some 0⟩]
  ∧ c1e3.diags = [.error (.conflictingDeclarationError 3 1)]
  ∧ c1e3.vars = c1e2.vars
  ∧ c1e3.globals = c1e2.globals := by
  exact ⟨rfl, rfl, rfl, rfl, rfl, rfl, rfl⟩

theorem FunctionType.typeEqual_refl (a : FunctionType) :
    FunctionType.typeEqual a a = true := by
  simp [FunctionType.typeEqual, CType.beq_refl, CType.beqList_refl]

theorem FunctionType.typeEqual_sound (a b : FunctionType) :
    FunctionType.typeEqual a b = true → a = b := by
  cases a with | mk ap ar ae ac atk =>
  cases b with | mk bp br be bc btk =>
  intro h
  simp only [FunctionType.typeEqual, Bool.and_eq_true, beq_iff_eq] at h
  obtain ⟨⟨⟨⟨h1, h2⟩, h3⟩, h4⟩, h5⟩ := h
  simp [CType.beq_sound _ _ h1, CType.beqList_sound _ _ h2, h3, h4, h5]

theorem FunctionType.typeEqual_eq_false_of_ne {a b : FunctionType}
    (h : a ≠ b) : FunctionType.typeEqual a b = false := by
  cases hte : FunctionType.typeEqual a b with
  | true => exact absurd (FunctionType.typeEqual_sound a b hte) h
  | false => rfl

/-- Claim C5 (amended): for a pair of declarations of the same name,
the second is a silent no-op (no diagnostic, state unchanged) when the
two function types are fully identical, qualifiers included; when the
parameter types and counts match but the types differ (a different
return type, or merely different qualifiers), the second fails with the
return-overload error and is not registered in the symbol table. -/
theorem c5_overload_amended :
    ∀ (st : ModState) (name : String) (o : FuncSymbol) (ft : FunctionType)
      (storageClass : StorageClass) (isInline isNoInline : Bool) (pos : Nat),
      lookupVariable st name = none →
      lookupFunctions st name = [o] →
      (o.ftype = ft →
        addFunctionDeclaration st name ft storageClass isInline isNoInline pos
          = st)
      ∧ (o.ftype.paramTypes = ft.paramTypes → o.ftype ≠ ft →
        (addFunctionDeclaration st name ft storageClass isInline isNoInline
            pos).funcs = st.funcs
        ∧ Diag.error .returnOverloadError ∈
          (addFunctionDeclaration st name ft storageClass isInline isNoInline
            pos).diags) := by
  intro st name o ft sc inl ninl pos hvar hfns
  constructor
  · intro heq
    have hte : FunctionType.typeEqual o.ftype ft = true := by
      rw [heq]; exact FunctionType.typeEqual_refl ft
    simp [addFunctionDeclaration, hvar, hfns, scanOverloads, hte, addDiags]
  · intro hpar hne
    have hte : FunctionType.typeEqual o.ftype ft = false :=
      FunctionType.typeEqual_eq_false_of_ne hne
    have hbl : CType.beqList o.ftype.paramTypes ft.paramTypes = true := by
      rw [hpar]; exact CType.beqList_refl _
    refine ⟨?_, ?_⟩
    · simp [addFunctionDeclaration, hvar, hfns, scanOverloads, hte, hbl,
        addDiags]
    · simp [addFunctionDeclaration, hvar, hfns, scanOverloads, hte, hbl,
        addDiags]

/-- Claim C5 as stated is false on the code: the two declarations of f
have identical parameter types and identical return type, which is the
claim's definition of an identical signature, yet processing the second
declaration is not silent.  Type::Equal also compares the exported
qualifier, so the scan reports both the export-overload error and the
return-overload error (the latter although the return types agree). -/
theorem c5_overload_counterexample :
    c5ftA.paramTypes = c5ftB.paramTypes
  ∧ c5ftA.returnType = c5ftB.returnType
  ∧ c5out.diags = [.error .exportOverloadError, .error .returnOverloadError]
  ∧ c5out.funcs = c5st.funcs := by
  exact ⟨rfl, rfl, rfl, rfl⟩

/-- Witness for claim C5: the amended theorem applied at a concrete
input, a pair with equal parameter lists and different return types. -/
theorem c5_overload_witness :
    (addFunctionDeclaration
        ⟨[], [⟨"g", ⟨[tInt], tInt, false, false, false⟩, 0⟩], [], []⟩
        "g" ⟨[tInt], tFloat, false, false, false⟩ .scNone false false 1).funcs
      = [⟨"g", ⟨[tInt], tInt, false, false, false⟩, 0⟩]
  ∧ Diag.error .returnOverloadError ∈
      (addFunctionDeclaration
        ⟨[], [⟨"g", ⟨[tInt], tInt, false, false, false⟩, 0⟩], [], []⟩
        "g" ⟨[tInt], tFloat, false, false, false⟩ .scNone false false 1).diags :=
  (c5_overload_amended
      ⟨[], [⟨"g", ⟨[tInt], tInt, false, false, false⟩, 0⟩], [], []⟩
      "g" ⟨"g", ⟨[tInt], tInt, false, false, false⟩, 0⟩
      ⟨[tInt], tFloat, false, false, false⟩ .scNone false false 1
      rfl rfl).2 rfl
    (by intro h
        have h2 := congrArg FunctionType.returnType h
        exact absurd h2 (by simp [tInt, tFloat]))

theorem multiTargetLoop_errors_exit (env : MultiTargetEnv) :
    ∀ (ts : List TargetRunEnv) (seen : List Nat) (ec : Nat),
      0 < (multiTargetLoop env ts seen ec).2 →
      (multiTargetLoop env ts seen ec).1 = 1 := by
  intro ts
  induction ts with
  | nil =>
    intro seen ec h
    simp only [multiTargetLoop] at h ⊢
    split_ifs at h ⊢ <;> simp_all
  | cons t rest ih =>
    intro seen ec h
    simp only [multiTargetLoop] at h ⊢
    split_ifs at h ⊢ <;> first | rfl | exact ih _ _ h

/-- Claim C6 (amended): both branches of Module::CompileAndOutput
return a nonzero value whenever the accumulated error count is nonzero,
and warnings never enter the result; but the converse direction of the
claim fails, because invalid targets, illegal option combinations, and
write failures that report through perror rather than Error (bitcode,
header, dependency and stub outputs) also return 1 with a zero error
count. -/
theorem c6_exit_status_amended :
    (∀ (env : SingleTargetEnv) (outputType : OutputType1),
      0 < (compileAndOutputSingle env outputType).2 →
      (compileAndOutputSingle env outputType).1 = 1)
  ∧ (∀ (env : MultiTargetEnv) (outputType : OutputType1),
      0 < (compileAndOutputMulti env outputType).2 →
      (compileAndOutputMulti env outputType).1 = 1) := by
  constructor
  · intro env outputType h
    simp only [compileAndOutputSingle] at h ⊢
    split_ifs at h ⊢ <;> simp_all
  · intro env outputType h
    simp only [compileAndOutputMulti] at h ⊢
    split_ifs at h ⊢ <;>
      first
        | rfl
        | exact multiTargetLoop_errors_exit env env.targets [] 0 h
        | simp_all

/-- Claim C6 as stated is false on the code: with a valid target, a
clean compile (zero errors) and a bitcode output whose write fails
(writeBitcode reports the failed open through perror only, calling no
Error), the single-target branch returns 1 while the accumulated error
count is zero, so a nonzero result does not imply a nonzero error
count. -/
theorem c6_exit_status_counterexample :
    (compileAndOutputSingle c6env .bitcode).1 = 1
  ∧ (compileAndOutputSingle c6env .bitcode).2 = 0 := by
  exact ⟨rfl, rfl⟩

/-- Witness for claim C6: the amended theorem applied at a concrete
input, a single-target run whose compile reports three errors. -/
theorem c6_exit_status_witness :
    (compileAndOutputSingle
      ⟨true, false, 3, none, none, none, none, none⟩ .object).1 = 1 :=
  c6_exit_status_amended.1 ⟨true, false, 3, none, none, none, none, none⟩
    .object (by decide)

/-- Claim C10: declaring a global with extern storage class and an
initializer reports exactly one error but is not atomic: the Symbol is
still registered in the symbol table, and the emitted global is an
uninitialized external declaration, the initializer expression being
ignored entirely (the result does not depend on it). -/
theorem c10_extern_initializer :
    ∀ (st : ModState) (name : String) (type : CType) (ie : InitExpr)
      (isConst : Bool) (pos : Nat),
      name ≠ "" →
      lookupFunctionExists st name = false →
      lookupVariable st name = none →
      type.isVoidType = false →
      (type.isArrayType && (type.totalElementCount == 0)) = false →
      addGlobalVariable st name (some type) (some ie) isConst .scExt pos =
        { st with
          diags := st.diags ++ [.error .externInitializerError],
          vars := st.vars ++
            [⟨name, type, .scExt, pos,
              some ⟨name, isConst, .externalLink, none⟩⟩],
          globals := st.globals.filter (fun g => g.name != name) ++
            [⟨name, isConst, .externalLink, none⟩] } := by
  intro st name type ie isConst pos hname hfn hvar hvoid harr
  have hvars : ∀ s ∈ st.vars, ¬ (s.name = name) := by
    intro s hs
    have h2 := List.find?_eq_none.mp hvar s hs
    simpa using h2
  have hvarU : st.vars.find? (fun s => s.name == name) = none := hvar
  have hmap : st.vars.map (fun s =>
      if s.name = name then
        { s with storage := some ⟨name, isConst, .externalLink, none⟩ }
      else s) = st.vars := by
    conv_rhs => rw [← List.map_id st.vars]
    apply List.map_congr_left
    intro s hs
    simp [hvars s hs]
  simp [addGlobalVariable, sizeUnsizedArrays, lookupVariable, addDiags,
    finishGlobalVariable, hname, hfn, hvoid, harr, hvarU, hmap]

/-- Witness for claim C10: the theorem applied at a concrete input, an
extern int declaration with a constant initializer. -/
theorem c10_extern_initializer_witness :
    addGlobalVariable st0 "g" (some tInt) (some ⟨true, some 7⟩) false
        .scExt 4 =
      { st0 with
        diags := [.error .externInitializerError],
        vars := [⟨"g", tInt, .scExt, 4,
          some ⟨"g", false, .externalLink, none⟩⟩],
        globals := [⟨"g", false, .externalLink, none⟩] } :=
  c10_extern_initializer st0 "g" tInt ⟨true, some 7⟩ false 4
    (by decide) rfl rfl rfl rfl

theorem mem_registerDependency (deps : List String) (r d : String) :
    d ∈ registerDependency deps r ↔
      (d ∈ deps ∨
        (d = r ∧ firstCharOrNul r ≠ '<' ∧ r ≠ "stdlib.ispc")) := by
  unfold registerDependency
  split_ifs with h1 h2
  · exact ⟨Or.inl, fun h => h.elim id (fun hh => hh.1 ▸ h2)⟩
  · simp only [List.mem_append, List.mem_singleton]
    constructor
    · rintro (h | h)
      · exact Or.inl h
      · exact Or.inr ⟨h, h1⟩
    · rintro (h | ⟨h, _⟩)
      · exact Or.inl h
      · exact Or.inr h
  · exact ⟨Or.inl, fun h => h.elim id (fun hh => absurd hh.2 h1)⟩

theorem nodup_registerDependency (deps : List String) (r : String)
    (h : deps.Nodup) : (registerDependency deps r).Nodup := by
  unfold registerDependency
  split_ifs with h1 h2
  · exact h
  · simp [List.nodup_append, h, h2]
  · exact h

theorem foldl_registerDependency_mem (reports : List String) :
    ∀ (acc : List String) (d : String),
      d ∈ reports.foldl registerDependency acc ↔
        (d ∈ acc ∨
          (d ∈ reports ∧ firstCharOrNul d ≠ '<' ∧ d ≠ "stdlib.ispc")) := by
  induction reports with
  | nil => simp
  | cons r rs ih =>
    intro acc d
    simp only [List.foldl_cons]
    rw [ih (registerDependency acc r) d, mem_registerDependency]
    simp only [List.mem_cons]
    constructor
    · rintro ((h | ⟨rfl, hc⟩) | ⟨hrs, hc⟩)
      · exact Or.inl h
      · exact Or.inr ⟨Or.inl rfl, hc⟩
      · exact Or.inr ⟨Or.inr hrs, hc⟩
    · rintro (h | ⟨rfl | hrs, hc⟩)
      · exact Or.inl (Or.inl h)
      · exact Or.inl (Or.inr ⟨rfl, hc⟩)
      · exact Or.inr ⟨hrs, hc⟩

theorem foldl_registerDependency_nodup (reports : List String) :
    ∀ acc : List String, acc.Nodup →
      (reports.foldl registerDependency acc).Nodup := by
  induction reports with
  | nil => intro acc h; exact h
  | cons r rs ih =>
    intro acc h
    exact ih _ (nodup_registerDependency acc r h)

/-- Claim C9: folding any sequence of RegisterDependency calls from the
empty set, a name is recorded iff it was reported and neither begins
with a left angle bracket nor is exactly "stdlib.ispc"; the emitted
dependency listing therefore never contains such names, and set
semantics keep each recorded dependency exactly once (the final list is
duplicate-free), however many times it was reported. -/
theorem c9_dependency_registry :
    ∀ reports : List String,
      (∀ d : String,
        d ∈ writeDepsLines (reports.foldl registerDependency []) ↔
          (d ∈ reports ∧ firstCharOrNul d ≠ '<' ∧ d ≠ "stdlib.ispc"))
      ∧ (writeDepsLines (reports.foldl registerDependency [])).Nodup := by
  intro reports
  constructor
  · intro d
    rw [writeDepsLines, foldl_registerDependency_mem reports [] d]
    simp
  · exact foldl_registerDependency_nodup reports [] List.nodup_nil

/-- Witness for claim C9: the theorem applied to the concrete report
sequence a.h, built-in pseudo-file, stdlib.ispc, a.h again: a.h is
recorded and stdlib.ispc is not. -/
theorem c9_dependency_registry_witness :
    "a.h" ∈ writeDepsLines
      (["a.h", "<built-in>", "stdlib.ispc", "a.h"].foldl registerDependency [])
  ∧ "stdlib.ispc" ∉ writeDepsLines
      (["a.h", "<built-in>", "stdlib.ispc", "a.h"].foldl
        registerDependency []) :=
  ⟨((c9_dependency_registry ["a.h", "<built-in>", "stdlib.ispc", "a.h"]).1
      "a.h").2 ⟨by decide, by decide, by decide⟩,
    fun h =>
      (((c9_dependency_registry
        ["a.h", "<built-in>", "stdlib.ispc", "a.h"]).1
          "stdlib.ispc").1 h).2.2 rfl⟩

theorem lExtract_cons_skip (gv : LGlobal) (rest mdst : List LGlobal)
    (check : Bool) (h : ¬ (gv.linkage = .externalLink ∧ gv.init.isSome)) :
    lExtractOrCheckGlobals (gv :: rest) mdst check =
      ⟨gv :: (lExtractOrCheckGlobals rest mdst check).msrc,
        (lExtractOrCheckGlobals rest mdst check).mdst,
        (lExtractOrCheckGlobals rest mdst check).diags,
        (lExtractOrCheckGlobals rest mdst check).assertOk⟩ := by
  simp [lExtractOrCheckGlobals, h]

theorem lExtract_cons_extract (gv : LGlobal) (rest mdst : List LGlobal)
    (h : gv.linkage = .externalLink ∧ gv.init.isSome) :
    lExtractOrCheckGlobals (gv :: rest) mdst false =
      ⟨{ gv with init := none } ::
          (lExtractOrCheckGlobals rest
            (mdst ++ [⟨gv.name, .externalLink, gv.init, gv.isConst,
              gv.valueType⟩]) false).msrc,
        (lExtractOrCheckGlobals rest
          (mdst ++ [⟨gv.name, .externalLink, gv.init, gv.isConst,
            gv.valueType⟩]) false).mdst,
        (lExtractOrCheckGlobals rest
          (mdst ++ [⟨gv.name, .externalLink, gv.init, gv.isConst,
            gv.valueType⟩]) false).diags,
        (lExtractOrCheckGlobals rest
          (mdst ++ [⟨gv.name, .externalLink, gv.init, gv.isConst,
            gv.valueType⟩]) false).assertOk⟩ := by
  simp [lExtractOrCheckGlobals, h]

theorem lExtract_cons_check_found (gv : LGlobal) (rest mdst : List LGlobal)
    (e : LGlobal) (h : gv.linkage = .externalLink ∧ gv.init.isSome)
    (he : mdst.find? (fun x => x.name == gv.name) = some e) :
    lExtractOrCheckGlobals (gv :: rest) mdst true =
      ⟨{ gv with init := none } ::
          (lExtractOrCheckGlobals rest mdst true).msrc,
        (lExtractOrCheckGlobals rest mdst true).mdst,
        (if lCompatibleTypes (.pointer e.valueType) (.pointer gv.valueType)
            = false then
          [Diag.warning (.globalLayoutMismatch gv.name)]
        else []) ++ (lExtractOrCheckGlobals rest mdst true).diags,
        (lExtractOrCheckGlobals rest mdst true).assertOk⟩ := by
  simp [lExtractOrCheckGlobals, h, he]

theorem promotedGlobals_nil : promotedGlobals [] = [] := rfl

theorem promotedGlobals_cons_extdef (gv : LGlobal) (rest : List LGlobal)
    (h : gv.linkage = .externalLink ∧ gv.init.isSome) :
    promotedGlobals (gv :: rest) =
      ⟨gv.name, .externalLink, gv.init, gv.isConst, gv.valueType⟩ ::
        promotedGlobals rest := by
  simp [promotedGlobals, List.filterMap_cons, h]

theorem promotedGlobals_cons_skip (gv : LGlobal) (rest : List LGlobal)
    (h : ¬ (gv.linkage = .externalLink ∧ gv.init.isSome)) :
    promotedGlobals (gv :: rest) = promotedGlobals rest := by
  simp [promotedGlobals, List.filterMap_cons, h]

theorem defCount_append (a b : List LGlobal) (n : String) :
    defCount (a ++ b) n = defCount a n + defCount b n := by
  simp [defCount, List.filter_append]

theorem defCount_cons (g : LGlobal) (l : List LGlobal) (n : String) :
    defCount (g :: l) n =
      (if g.name == n && g.init.isSome then 1 else 0) + defCount l n := by
  by_cases h : (g.name == n && g.init.isSome) = true <;>
    simp [defCount, List.filter_cons, h, Nat.add_comm]

theorem extract_mdst (msrc : List LGlobal) :
    ∀ mdst : List LGlobal,
      (lExtractOrCheckGlobals msrc mdst false).mdst =
        mdst ++ promotedGlobals msrc := by
  induction msrc with
  | nil => intro mdst; simp [lExtractOrCheckGlobals, promotedGlobals_nil]
  | cons gv rest ih =>
    intro mdst
    by_cases h : gv.linkage = .externalLink ∧ gv.init.isSome
    · rw [lExtract_cons_extract gv rest mdst h]
      show (lExtractOrCheckGlobals rest _ false).mdst = _
      rw [ih, promotedGlobals_cons_extdef gv rest h, List.append_assoc]
      rfl
    · rw [lExtract_cons_skip gv rest mdst false h]
      show (lExtractOrCheckGlobals rest mdst false).mdst = _
      rw [ih, promotedGlobals_cons_skip gv rest h]

theorem extract_msrc_demoted (msrc : List LGlobal) :
    ∀ (mdst : List LGlobal) (g : LGlobal),
      g ∈ (lExtractOrCheckGlobals msrc mdst false).msrc →
      g.linkage = .externalLink → g.init = none := by
  induction msrc with
  | nil =>
    intro mdst g hg
    simp [lExtractOrCheckGlobals] at hg
  | cons gv rest ih =>
    intro mdst g hg hl
    by_cases h : gv.linkage = .externalLink ∧ gv.init.isSome
    · rw [lExtract_cons_extract gv rest mdst h] at hg
      have hg2 : g = { gv with init := none } ∨
          g ∈ (lExtractOrCheckGlobals rest
            (mdst ++ [⟨gv.name, .externalLink, gv.init, gv.isConst,
              gv.valueType⟩]) false).msrc := List.mem_cons.mp hg
      rcases hg2 with rfl | hg2
      · rfl
      · exact ih _ g hg2 hl
    · rw [lExtract_cons_skip gv rest mdst false h] at hg
      have hg2 : g = gv ∨
          g ∈ (lExtractOrCheckGlobals rest mdst false).msrc :=
        List.mem_cons.mp hg
      rcases hg2 with rfl | hg2
      · cases hi : g.init with
        | none => rfl
        | some v => exact absurd ⟨hl, by simp [hi]⟩ h
      · exact ih _ g hg2 hl

theorem promoted_defCount_zero (msrc : List LGlobal) :
    ∀ n : String, (∀ g ∈ msrc, ¬ (g.name = n)) →
      defCount (promotedGlobals msrc) n = 0 := by
  induction msrc with
  | nil => intro n _; rfl
  | cons gv rest ih =>
    intro n h
    have hgv : (gv.name == n) = false := by
      simpa using h gv (List.mem_cons_self gv rest)
    have hrest := ih n (fun g hg => h g (List.mem_cons_of_mem gv hg))
    by_cases hc : gv.linkage = .externalLink ∧ gv.init.isSome
    · rw [promotedGlobals_cons_extdef gv rest hc, defCount_cons]
      simp [hgv, hrest]
    · rw [promotedGlobals_cons_skip gv rest hc]
      exact hrest

theorem promoted_defCount_one (msrc : List LGlobal) :
    ∀ g : LGlobal, (msrc.map LGlobal.name).Nodup → g ∈ msrc →
      g.linkage = .externalLink → g.init.isSome = true →
      defCount (promotedGlobals msrc) g.name = 1 := by
  induction msrc with
  | nil => intro g _ hg; cases hg
  | cons gv rest ih =>
    intro g hnodup hg hl hi
    have hnin : gv.name ∉ rest.map LGlobal.name :=
      (List.nodup_cons.mp (by simpa using hnodup)).1
    have hnd2 : (rest.map LGlobal.name).Nodup :=
      (List.nodup_cons.mp (by simpa using hnodup)).2
    rcases List.mem_cons.mp hg with rfl | hg
    · have hcg : g.linkage = .externalLink ∧ g.init.isSome := ⟨hl, hi⟩
      have h0 := promoted_defCount_zero rest g.name
        (fun g2 hg2 hc => hnin (List.mem_map.mpr ⟨g2, hg2, hc⟩))
      rw [promotedGlobals_cons_extdef g rest hcg, defCount_cons]
      simp [hi, h0]
    · have hne : (gv.name == g.name) = false := by
        have hnee : ¬ (gv.name = g.name) := fun hc =>
          hnin (hc ▸ List.mem_map.mpr ⟨g, hg, rfl⟩)
        simpa using hnee
      have hr := ih g hnd2 hg hl hi
      by_cases hc : gv.linkage = .externalLink ∧ gv.init.isSome
      · rw [promotedGlobals_cons_extdef gv rest hc, defCount_cons]
        simp [hne, hr]
      · rw [promotedGlobals_cons_skip gv rest hc]
        exact hr

theorem check_mode_props (msrc : List LGlobal) :
    ∀ mdst : List LGlobal,
      (∀ g ∈ msrc, g.linkage = .externalLink → g.init.isSome = true →
        (mdst.find? (fun e => e.name == g.name)).isSome = true) →
      (lExtractOrCheckGlobals msrc mdst true).mdst = mdst
      ∧ (lExtractOrCheckGlobals msrc mdst true).assertOk = true
      ∧ (∀ d ∈ (lExtractOrCheckGlobals msrc mdst true).diags,
          d.isWarning = true)
      ∧ (∀ g ∈ msrc, g.linkage = .externalLink → g.init.isSome = true →
          ∀ e, mdst.find? (fun x => x.name == g.name) = some e →
          lCompatibleTypes (.pointer e.valueType) (.pointer g.valueType)
            = false →
          Diag.warning (.globalLayoutMismatch g.name) ∈
            (lExtractOrCheckGlobals msrc mdst true).diags) := by
  induction msrc with
  | nil =>
    intro mdst h
    refine ⟨rfl, rfl, ?_, ?_⟩
    · intro d hd; simp [lExtractOrCheckGlobals] at hd
    · intro g hg; cases hg
  | cons gv rest ih =>
    intro mdst h
    have ihr := ih mdst (fun g hg => h g (List.mem_cons_of_mem gv hg))
    by_cases hc : gv.linkage = .externalLink ∧ gv.init.isSome
    · obtain ⟨e, he⟩ := Option.isSome_iff_exists.mp
        (h gv (List.mem_cons_self gv rest) hc.1 hc.2)
      rw [lExtract_cons_check_found gv rest mdst e hc he]
      refine ⟨ihr.1, ihr.2.1, ?_, ?_⟩
      · intro d hd
        rcases List.mem_append.mp hd with hd2 | hd2
        · by_cases hcmp : lCompatibleTypes (.pointer e.valueType)
              (.pointer gv.valueType) = false
          · rw [if_pos hcmp] at hd2
            rcases List.mem_singleton.mp hd2 with rfl
            rfl
          · rw [if_neg hcmp] at hd2
            cases hd2
        · exact ihr.2.2.1 d hd2
      · intro g hg hl hi e2 he2 hcmp
        rcases List.mem_cons.mp hg with rfl | hg
        · have hee : e = e2 := by
            rw [he] at he2
            exact Option.some.inj he2
          subst hee
          have hin : Diag.warning (.globalLayoutMismatch g.name) ∈
              (if lCompatibleTypes (.pointer e.valueType)
                  (.pointer g.valueType) = false then
                [Diag.warning (.globalLayoutMismatch g.name)]
              else []) := by
            rw [if_pos hcmp]
            exact List.mem_singleton.mpr rfl
          exact List.mem_append.mpr (Or.inl hin)
        · exact List.mem_append.mpr
            (Or.inr (ihr.2.2.2 g hg hl hi e2 he2 hcmp))
    · rw [lExtract_cons_skip gv rest mdst true hc]
      refine ⟨ihr.1, ihr.2.1, ihr.2.2.1, ?_⟩
      intro g hg hl hi e2 he2 hcmp
      rcases List.mem_cons.mp hg with rfl | hg
      · exact absurd ⟨hl, hi⟩ hc
      · exact ihr.2.2.2 g hg hl hi e2 he2 hcmp

/-- Claim C4: for the first compiled target (extract mode) the dispatch
module receives exactly the promoted external definitions of the source
module, and so contains exactly one definition of each externally
linked, initialized source global (source global names being unique and
not yet defined in the dispatch module); every external global left in
the source module has its initializer cleared (demoted to a
declaration).  For subsequent targets (check mode) the dispatch module
is not modified, the existence assert holds whenever every such global
is present, every diagnostic issued is a warning (never an error), and
an incompatible type draws the layout-mismatch warning for that
global. -/
theorem c4_global_reconciliation :
    (∀ (msrc mdst : List LGlobal),
      (lExtractOrCheckGlobals msrc mdst false).mdst =
        mdst ++ promotedGlobals msrc)
  ∧ (∀ (msrc mdst : List LGlobal) (g : LGlobal),
      (msrc.map LGlobal.name).Nodup →
      (∀ g2 ∈ msrc, defCount mdst g2.name = 0) →
      g ∈ msrc → g.linkage = .externalLink → g.init.isSome = true →
      defCount ((lExtractOrCheckGlobals msrc mdst false).mdst) g.name = 1)
  ∧ (∀ (msrc mdst : List LGlobal) (g : LGlobal),
      g ∈ (lExtractOrCheckGlobals msrc mdst false).msrc →
      g.linkage = .externalLink → g.init = none)
  ∧ (∀ (msrc mdst : List LGlobal),
      (∀ g ∈ msrc, g.linkage = .externalLink → g.init.isSome = true →
        (mdst.find? (fun e => e.name == g.name)).isSome = true) →
      (lExtractOrCheckGlobals msrc mdst true).mdst = mdst
      ∧ (lExtractOrCheckGlobals msrc mdst true).assertOk = true
      ∧ (∀ d ∈ (lExtractOrCheckGlobals msrc mdst true).diags,
          d.isWarning = true)
      ∧ (∀ g ∈ msrc, g.linkage = .externalLink → g.init.isSome = true →
          ∀ e, mdst.find? (fun x => x.name == g.name) = some e →
          lCompatibleTypes (.pointer e.valueType) (.pointer g.valueType)
            = false →
          Diag.warning (.globalLayoutMismatch g.name) ∈
            (lExtractOrCheckGlobals msrc mdst true).diags)) := by
  refine ⟨fun msrc => extract_mdst msrc, ?_,
    fun msrc => extract_msrc_demoted msrc, fun msrc => check_mode_props msrc⟩
  intro msrc mdst g hnodup hfresh hg hl hi
  rw [extract_mdst msrc mdst, defCount_append, hfresh g hg]
  rw [promoted_defCount_one msrc g hnodup hg hl hi]

/-- Witness for claim C4: the exactly-one-definition part of the
theorem applied at a concrete input, a source module with one external
defined global and an empty dispatch module. -/
theorem c4_global_reconciliation_witness :
    defCount ((lExtractOrCheckGlobals
      [⟨"a", .externalLink, some 5, false, .simple 0⟩] [] false).mdst)
      "a" = 1 :=
  c4_global_reconciliation.2.1
    [⟨"a", .externalLink, some 5, false, .simple 0⟩] []
    ⟨"a", .externalLink, some 5, false, .simple 0⟩
    (by simp) (fun g2 _ => rfl) (List.mem_singleton.mpr rfl) rfl rfl

end ISPCModule
